import Mathlib

/-!
Shallow embedding of the sallyport block protocol core:
item framing (`item/mod.rs`), the host-side block cursor
(`host/mod.rs`, `BlockIter::next`), the guest read call's stage/collect
steps (`guest/syscall/read.rs`), and the fcntl call-binding policy
(`guest/call/syscall/fcntl.rs`), together with theorems settling the
specification claims about them.
-/

namespace Sallyport

/-- Bytes per machine word on the reference x86_64 target (`size_of::<usize>()`). -/
def wordSize : Nat := 8

/-- Size in bytes of `item::Header { size: usize, kind: Kind }` with
`repr(C, align(8))`: two words. -/
def headerSize : Nat := 2 * wordSize

/-- Number of machine words occupied by a header (`size_of::<Header>() / size_of::<usize>()`). -/
def headerWords : Nat := headerSize / wordSize

/-- Item kind discriminator, from `item/mod.rs` (`End = 0x00`, `Syscall = 0x01`). -/
inductive Kind where
  | End
  | Syscall
deriving DecidableEq, Repr

/-- The wire value of a `Kind` (its `repr(usize)` discriminant). -/
def Kind.code : Kind → Nat
  | .End => 0
  | .Syscall => 1

/-- `Kind::try_from` (`item/mod.rs`): accept the wire value `0` as `End` and
`1` as `Syscall`, reject everything else. -/
def Kind.tryFrom (k : Nat) : Except Unit Kind :=
  if k = Kind.End.code then .ok .End
  else if k = Kind.Syscall.code then .ok .Syscall
  else .error ()

/-- `usize::checked_sub`: `some (a - b)` when `b ≤ a`, `none` on underflow. -/
def checkedSub (a b : Nat) : Option Nat :=
  if b ≤ a then some (a - b) else none

/-- Mutable state of `BlockIter`: remaining `capacity` in bytes and the cursor
position `pos` as a word index into the block. -/
structure IterState where
  capacity : Nat
  pos : Nat
deriving DecidableEq, Repr

/-- `BlockIter::new` over a block of `n` words: capacity `n * size_of::<usize>()`
bytes, cursor at the start of the block. -/
def BlockIter.new (n : Nat) : IterState :=
  ⟨n * wordSize, 0⟩

/-- Outcome of one `BlockIter::next` step.  `oob` marks a header read that
falls outside the block (an out-of-bounds raw-pointer read in the source);
`assertFail` marks the `assert_eq!(header.size, 0)` failure on a nonzero-size
`End` header; `done` is `None`; `yield` is `Some(BlockItem)` carrying the item
kind word, the body's starting word index and byte length, and the successor
iterator state. -/
inductive Step where
  | oob
  | assertFail
  | done
  | yield (kind : Nat) (bodyPos : Nat) (bodyLen : Nat) (s : IterState)
deriving DecidableEq, Repr

/-- `BlockIter::next` (`host/mod.rs`): read the header `{size, kind}` at the
cursor, stop at `End` (asserting its size is `0`), stop silently on an
unaligned size, subtract the header-plus-body footprint from the remaining
capacity with `checked_sub` (stopping on underflow), and otherwise yield the
item and advance past header and body. -/
def next (blk : List Nat) (s : IterState) : Step :=
  if s.pos + 1 < blk.length then
    if blk.getD (s.pos + 1) 0 = Kind.End.code then
      if blk.getD s.pos 0 = 0 then .done else .assertFail
    else if blk.getD s.pos 0 % wordSize ≠ 0 then .done
    else
      match checkedSub s.capacity (headerSize + blk.getD s.pos 0) with
      | none => .done
      | some cap =>
          .yield (blk.getD (s.pos + 1) 0) (s.pos + headerWords) (blk.getD s.pos 0)
            ⟨cap, s.pos + headerWords + blk.getD s.pos 0 / wordSize⟩
  else .oob

/-- Guest-side view of a syscall return: a successful magnitude or an errno,
mirroring `Result<size_t>` in `guest/syscall/read.rs`. -/
inductive SysRet where
  | ok (val : Nat)
  | err (errno : Nat)
deriving DecidableEq, Repr

/-- Modelled from the spec: the decoding of the raw host-written return word
into `Result<size_t>` (the `Into` implementation lives outside `src/`).  Per
the spec's reference convention, a word in the negative range under
two's-complement interpretation encodes an error code and any non-negative
word is a successful magnitude. -/
def decodeRet (w : Nat) : SysRet :=
  if 2 ^ 63 ≤ w % 2 ^ 64 then .err (2 ^ 64 - w % 2 ^ 64) else .ok (w % 2 ^ 64)

/-- The `usize` value of a C integer argument (`as _` cast in the source). -/
def usizeOfInt (i : Int) : Nat :=
  (i % 2 ^ 64).toNat

/-- State of the staging allocator over a block: total byte `capacity` and the
`free` offset at which the next reservation starts. -/
structure AllocState where
  capacity : Nat
  free : Nat
deriving DecidableEq, Repr

/-- An allocation handle: byte `offset` and `length` of a staged region. -/
structure Handle where
  offset : Nat
  length : Nat
deriving DecidableEq, Repr

/-- Modelled from the spec: `Output::stage_slice_max` of the guest allocator
(not under `src/`) — a monotonic bump reservation with max-fit semantics:
reserve `min(requested, remaining free space)` bytes at the current free
offset, never failing when the request exceeds the remaining space. -/
def stageSliceMax (s : AllocState) (len : Nat) : Handle × AllocState :=
  let n := min len (s.capacity - s.free)
  (⟨s.free, n⟩, ⟨s.capacity, s.free + n⟩)

namespace Read

/-- `Read::stage` (`guest/syscall/read.rs`): stage the destination buffer with
`stage_slice_max` and build the argument vector
`[fd as usize, buf.offset(), buf.len()]`, returning the staged handle and the
successor allocator state. -/
def stage (fd : Int) (bufLen : Nat) (s : AllocState) : (List Nat × Handle) × AllocState :=
  let (h, s2) := stageSliceMax s bufLen
  (([usizeOfInt fd, h.offset, h.length], h), s2)

/-- `Read::collect` (`guest/syscall/read.rs`): given the committed (staged)
length and the decoded return, produce the collected result together with the
number of payload bytes copied back into the caller's buffer.  A successful
magnitude larger than the committed length yields `none` and copies nothing;
a successful magnitude `r ≤ committed` copies exactly `r` bytes
(`collect_range(col, 0..ret)`); an error copies nothing. -/
def collect (committedLen : Nat) (ret : SysRet) : Option SysRet × Nat :=
  match ret with
  | .ok r => if committedLen < r then (none, 0) else (some (.ok r), r)
  | .err e => (some (.err e), 0)

end Read

/-- `STDIN_FILENO`. -/
def STDIN_FILENO : Int := 0

/-- `STDOUT_FILENO`. -/
def STDOUT_FILENO : Int := 1

/-- `STDERR_FILENO`. -/
def STDERR_FILENO : Int := 2

/-- `F_GETFD`. -/
def F_GETFD : Int := 1

/-- `F_SETFD`. -/
def F_SETFD : Int := 2

/-- `F_GETFL`. -/
def F_GETFL : Int := 3

/-- `F_SETFL`. -/
def F_SETFL : Int := 4

/-- `O_WRONLY`. -/
def O_WRONLY : Int := 1

/-- `O_RDWR`. -/
def O_RDWR : Int := 2

/-- `O_APPEND`. -/
def O_APPEND : Int := 1024

/-- `EINVAL`. -/
def EINVAL : Int := 22

/-- `EBADFD`. -/
def EBADFD : Int := 77

/-- Outcome of the fcntl binding decision (`UnstagedMaybeAlloc`): a locally
stubbed success value, a defined error, or a cross-to-host allocation carrying
the argv that `AllocFcntl::stage` builds. -/
inductive FcntlOutcome where
  | stub (val : Int)
  | err (errno : Int)
  | alloc (argv : List Nat)
deriving DecidableEq, Repr

namespace Fcntl

/-- `Fcntl::stage` (`guest/call/syscall/fcntl.rs`) composed with
`AllocFcntl::stage` for the cross case: match on `(fd, cmd)` in source order —
stdin `F_GETFL` stubs `O_RDWR | O_APPEND`; stdout/stderr `F_GETFL` stubs
`O_WRONLY`; any other command on the three standard descriptors is `EINVAL`;
`F_GETFD`, `F_SETFD`, `F_GETFL`, `F_SETFL` on other descriptors allocates a
passthrough with argv `[fd, cmd, arg]`; everything else is `EBADFD`. -/
def stage (fd cmd arg : Int) : FcntlOutcome :=
  if fd = STDIN_FILENO ∧ cmd = F_GETFL then .stub (Int.lor O_RDWR O_APPEND)
  else if (fd = STDOUT_FILENO ∨ fd = STDERR_FILENO) ∧ cmd = F_GETFL then .stub O_WRONLY
  else if fd = STDIN_FILENO ∨ fd = STDOUT_FILENO ∨ fd = STDERR_FILENO then .err EINVAL
  else if cmd = F_GETFD ∨ cmd = F_SETFD ∨ cmd = F_GETFL ∨ cmd = F_SETFL then
    .alloc [usizeOfInt fd, usizeOfInt cmd, usizeOfInt arg]
  else .err EBADFD

end Fcntl

/-- Claim C9: `Kind::try_from` accepts exactly the two wire values — `Ok(End)`
iff the word is `0`, `Ok(Syscall)` iff it is `1`, `Err(())` for every other
word — and every `Kind` round-trips through its wire value. -/
theorem kind_tryFrom_exact (k : Nat) :
    (Kind.tryFrom k = .ok .End ↔ k = 0) ∧
    (Kind.tryFrom k = .ok .Syscall ↔ k = 1) ∧
    (Kind.tryFrom k = .error () ↔ k ≠ 0 ∧ k ≠ 1) ∧
    (∀ v : Kind, Kind.tryFrom v.code = .ok v) := by
  refine ⟨?_, ?_, ?_, ?_⟩
  · unfold Kind.tryFrom Kind.code
    split_ifs with h0 h1 <;> simp_all
  · unfold Kind.tryFrom Kind.code
    split_ifs with h0 h1 <;> simp_all
  · unfold Kind.tryFrom Kind.code
    split_ifs with h0 h1 <;> simp_all
  · intro v
    cases v <;> rfl

/-- Claim C3: iterating the cursor over the 20-word block
`[32,1,0,0,0,0,24,1,0,0,0,0,0,1,2,3,4,5,6,7]` yields a Syscall item with a
32-byte body, then a Syscall item with a 24-byte body, and then terminates at
the `End` header. -/
theorem iter_literal_block :
    next [32, 1, 0, 0, 0, 0, 24, 1, 0, 0, 0, 0, 0, 1, 2, 3, 4, 5, 6, 7]
        (BlockIter.new 20) =
      .yield Kind.Syscall.code 2 32 ⟨112, 6⟩ ∧
    next [32, 1, 0, 0, 0, 0, 24, 1, 0, 0, 0, 0, 0, 1, 2, 3, 4, 5, 6, 7] ⟨112, 6⟩ =
      .yield Kind.Syscall.code 8 24 ⟨72, 11⟩ ∧
    next [32, 1, 0, 0, 0, 0, 24, 1, 0, 0, 0, 0, 0, 1, 2, 3, 4, 5, 6, 7] ⟨72, 11⟩ =
      .done := by
  refine ⟨?_, ?_, ?_⟩ <;> decide

/-- Claim C2: at any non-`End` header whose footprint (header plus body) would
exceed the remaining capacity, `BlockIter::next` ends the sequence — it yields
no item, performs no read past the block, and neither panics nor crashes; the
`checked_sub` on the capacity fails and the step returns `None`. -/
theorem cursor_capacity_safe (blk : List Nat) (s : IterState)
    (hpos : s.pos + 1 < blk.length)
    (hkind : blk.getD (s.pos + 1) 0 ≠ Kind.End.code)
    (hcap : s.capacity < headerSize + blk.getD s.pos 0) :
    next blk s = .done := by
  unfold next
  rw [if_pos hpos, if_neg hkind]
  by_cases halign : blk.getD s.pos 0 % wordSize ≠ 0
  · rw [if_pos halign]
  · rw [if_neg halign]
    have hsub : checkedSub s.capacity (headerSize + blk.getD s.pos 0) = none := by
      unfold checkedSub
      rw [if_neg (by omega)]
    rw [hsub]

/-- Witness for C2: a block of two words whose single header declares a
32-byte body that cannot fit in the 16-byte block; the step returns `None`. -/
theorem cursor_capacity_safe_witness :
    next [32, 1] (BlockIter.new 2) = .done :=
  cursor_capacity_safe [32, 1] (BlockIter.new 2) (by decide) (by decide) (by decide)

/-- Counterexample for C4: on the block `[8, 0]` the cursor reads an `End`
header with size `8 ≠ 0` and fails the `assert_eq!(header.size, 0)` — it
panics, contradicting the claim that the cursor stops at a corrupt `End`
without producing a panic/crash. -/
theorem cursor_end_nonzero_panics :
    next [8, 0] (BlockIter.new 2) = .assertFail := by
  decide

/-- Claim C4 (amended): when the cursor reads a header of kind `End` it yields
no further items: with size exactly `0` the sequence ends normally; with a
nonzero size — a corruption condition, not a valid terminal state — the cursor
halts with a failed assertion (a panic) rather than stopping silently. -/
theorem cursor_end_header (blk : List Nat) (s : IterState)
    (hpos : s.pos + 1 < blk.length)
    (hkind : blk.getD (s.pos + 1) 0 = Kind.End.code) :
    (blk.getD s.pos 0 = 0 → next blk s = .done) ∧
    (blk.getD s.pos 0 ≠ 0 → next blk s = .assertFail) := by
  constructor
  · intro hz
    unfold next
    rw [if_pos hpos, if_pos hkind, if_pos hz]
  · intro hnz
    unfold next
    rw [if_pos hpos, if_pos hkind, if_neg hnz]

/-- Witness for C4 (amended): a well-formed `End` sentinel ends the sequence
and a nonzero-size `End` header halts with the failed assertion. -/
theorem cursor_end_header_witness :
    next [0, 0] (BlockIter.new 2) = .done ∧ next [8, 0] (BlockIter.new 2) = .assertFail :=
  ⟨(cursor_end_header [0, 0] (BlockIter.new 2) (by decide) (by decide)).1 (by decide),
   (cursor_end_header [8, 0] (BlockIter.new 2) (by decide) (by decide)).2 (by decide)⟩

/-- Counterexample for C5: the header `{size = 7, kind = End}` has a size that
is not a multiple of the word width, yet the cursor does not end the sequence
silently — the `End` branch runs first and its assertion fails (a panic),
contradicting the claim for this header. -/
theorem cursor_unaligned_end_panics :
    next [7, 0] (BlockIter.new 2) = .assertFail := by
  decide

/-- Claim C5 (amended): for every header of kind other than `End` whose size
is not a multiple of the machine word width, the cursor ends the sequence at
that header, silently, without producing further items and without reading
past the cursor; an `End` header with a nonzero unaligned size instead halts
at the size assertion. -/
theorem cursor_unaligned_silent (blk : List Nat) (s : IterState)
    (hpos : s.pos + 1 < blk.length)
    (hkind : blk.getD (s.pos + 1) 0 ≠ Kind.End.code)
    (halign : blk.getD s.pos 0 % wordSize ≠ 0) :
    next blk s = .done := by
  unfold next
  rw [if_pos hpos, if_neg hkind, if_pos halign]

/-- Witness for C5 (amended): a Syscall header with size `7` ends the
sequence silently. -/
theorem cursor_unaligned_silent_witness :
    next [7, 1] (BlockIter.new 2) = .done :=
  cursor_unaligned_silent [7, 1] (BlockIter.new 2) (by decide) (by decide) (by decide)

/-- Counterexample for C1: with staged length `L = 4` and host-reported
success magnitude `R = 5 > L`, `Read::collect` copies `0` bytes — not the
`L = 4` bytes the claim promises — and yields no result at all. -/
theorem read_collect_overrun_copies_nothing :
    Read.collect 4 (.ok 5) = (none, 0) ∧ (0 : Nat) ≠ 4 := by
  refine ⟨?_, ?_⟩ <;> decide

/-- Claim C1 (amended): when the host-reported success magnitude `R` exceeds
the staged length `L`, `Read::collect` copies no bytes back and returns no
result (`None`) — it never copies `R`; when `R ≤ L` it copies exactly `R`
bytes; in every case at most `L` bytes are copied back. -/
theorem read_collect_clamp (L R : Nat) :
    (L < R → Read.collect L (.ok R) = (none, 0)) ∧
    (R ≤ L → Read.collect L (.ok R) = (some (.ok R), R)) ∧
    (Read.collect L (.ok R)).2 ≤ L := by
  refine ⟨fun h => ?_, fun h => ?_, ?_⟩
  · simp [Read.collect, h]
  · simp [Read.collect, Nat.not_lt.mpr h]
  · by_cases h : L < R
    · simp [Read.collect, h]
    · simp only [Read.collect, if_neg h]
      omega

/-- Witness for C1 (amended): at staged length `4`, magnitude `5` copies
nothing and yields `None`, magnitude `3` copies exactly `3` bytes. -/
theorem read_collect_clamp_witness :
    Read.collect 4 (.ok 5) = (none, 0) ∧ Read.collect 4 (.ok 3) = (some (.ok 3), 3) :=
  ⟨(read_collect_clamp 4 5).1 (by decide), (read_collect_clamp 4 3).2.1 (by decide)⟩

/-- Claim C7: when the host-written return word decodes to an error (negative
range under the two's-complement convention), `Read::collect` copies no
payload bytes and surfaces the errno as an ordinary failure value; payload
bytes are copied only when the return decodes to a success. -/
theorem read_collect_error_no_copy (L w : Nat) (hw : 2 ^ 63 ≤ w % 2 ^ 64) :
    Read.collect L (decodeRet w) = (some (.err (2 ^ 64 - w % 2 ^ 64)), 0) ∧
    ∀ r, (Read.collect L r).2 ≠ 0 → ∃ v, r = .ok v := by
  constructor
  · unfold decodeRet
    rw [if_pos hw]
    rfl
  · intro r hr
    cases r with
    | ok v => exact ⟨v, rfl⟩
    | err e => exact absurd rfl hr

/-- Witness for C7: the raw word `2^64 - 9` (the two's-complement encoding of
`-EBADF`) decodes to the error `9`; collect surfaces it and copies nothing. -/
theorem read_collect_error_no_copy_witness :
    Read.collect 16 (decodeRet (2 ^ 64 - 9)) =
      (some (.err (2 ^ 64 - (2 ^ 64 - 9) % 2 ^ 64)), 0) ∧
    ∀ r, (Read.collect 16 r).2 ≠ 0 → ∃ v, r = .ok v :=
  read_collect_error_no_copy 16 (2 ^ 64 - 9) (by norm_num)

/-- Claim C8: every staging request through `Read::stage` returns a handle
with `offset + length ≤ capacity`, and a request exceeding the remaining free
space does not fail — the staged length equals exactly the remaining free
space (max-fit). -/
theorem read_stage_alloc_bound (fd : Int) (len : Nat) (s : AllocState)
    (hfree : s.free ≤ s.capacity) :
    (Read.stage fd len s).1.2.offset + (Read.stage fd len s).1.2.length ≤ s.capacity ∧
    (s.capacity - s.free < len →
      (Read.stage fd len s).1.2.length = s.capacity - s.free) := by
  unfold Read.stage stageSliceMax
  constructor
  · simp only
    omega
  · intro hover
    simp only
    omega

/-- Witness for C8: staging a 100-byte buffer into a block with capacity `16`
and free offset `4` reserves exactly the remaining `12` bytes at offset `4`. -/
theorem read_stage_alloc_bound_witness :
    (Read.stage 3 100 ⟨16, 4⟩).1.2.offset + (Read.stage 3 100 ⟨16, 4⟩).1.2.length ≤ 16 ∧
    (Read.stage 3 100 ⟨16, 4⟩).1.2.length = 16 - 4 :=
  ⟨(read_stage_alloc_bound 3 100 ⟨16, 4⟩ (by decide)).1,
   (read_stage_alloc_bound 3 100 ⟨16, 4⟩ (by decide)).2 (by decide)⟩

/-- Claim C6: the fcntl binding decision is a total function of `(fd, cmd)`:
stdin with `F_GETFL` stubs the fixed value `O_RDWR | O_APPEND = 1026`;
stdout/stderr with `F_GETFL` stub the different fixed value `O_WRONLY = 1`;
any other command on a standard descriptor is the defined error `EINVAL`;
`F_GETFD`, `F_SETFD`, `F_GETFL`, `F_SETFL` on any other descriptor crosses to
the host; and every remaining combination is the distinct defined error
`EBADFD` — no combination falls through unhandled. -/
theorem fcntl_stage_total (fd cmd arg : Int) :
    (fd = STDIN_FILENO → cmd = F_GETFL → Fcntl.stage fd cmd arg = .stub 1026) ∧
    ((fd = STDOUT_FILENO ∨ fd = STDERR_FILENO) → cmd = F_GETFL →
      Fcntl.stage fd cmd arg = .stub 1) ∧
    ((fd = STDIN_FILENO ∨ fd = STDOUT_FILENO ∨ fd = STDERR_FILENO) → cmd ≠ F_GETFL →
      Fcntl.stage fd cmd arg = .err 22) ∧
    (¬(fd = STDIN_FILENO ∨ fd = STDOUT_FILENO ∨ fd = STDERR_FILENO) →
      (cmd = F_GETFD ∨ cmd = F_SETFD ∨ cmd = F_GETFL ∨ cmd = F_SETFL) →
      Fcntl.stage fd cmd arg = .alloc [usizeOfInt fd, usizeOfInt cmd, usizeOfInt arg]) ∧
    (¬(fd = STDIN_FILENO ∨ fd = STDOUT_FILENO ∨ fd = STDERR_FILENO) →
      ¬(cmd = F_GETFD ∨ cmd = F_SETFD ∨ cmd = F_GETFL ∨ cmd = F_SETFL) →
      Fcntl.stage fd cmd arg = .err 77) := by
  unfold Fcntl.stage STDIN_FILENO STDOUT_FILENO STDERR_FILENO
    F_GETFD F_SETFD F_GETFL F_SETFL O_WRONLY O_RDWR O_APPEND EINVAL EBADFD
  refine ⟨?_, ?_, ?_, ?_, ?_⟩ <;> intro h1 h2 <;> split_ifs <;>
    first
      | decide
      | rfl
      | omega

/-- Witness for C6: one concrete input in each of the five branches. -/
theorem fcntl_stage_total_witness :
    Fcntl.stage 0 3 7 = .stub 1026 ∧
    Fcntl.stage 2 3 7 = .stub 1 ∧
    Fcntl.stage 1 2 7 = .err 22 ∧
    Fcntl.stage 5 4 7 = .alloc [usizeOfInt 5, usizeOfInt 4, usizeOfInt 7] ∧
    Fcntl.stage 5 9 7 = .err 77 :=
  ⟨(fcntl_stage_total 0 3 7).1 (by decide) (by decide),
   (fcntl_stage_total 2 3 7).2.1 (by decide) (by decide),
   (fcntl_stage_total 1 2 7).2.2.1 (by decide) (by decide),
   (fcntl_stage_total 5 4 7).2.2.2.1 (by decide) (by decide),
   (fcntl_stage_total 5 9 7).2.2.2.2 (by decide) (by decide)⟩

/-- Claim C10: the fcntl binding decision does not depend on the third
argument — for equal `fd` and `cmd` and any two values of `arg`, the outcome
is identical in the stub and error cases, and in the cross case both outcomes
are allocations whose argv differ only in the third (arg) slot. -/
theorem fcntl_stage_arg_independent (fd cmd a b : Int) :
    Fcntl.stage fd cmd a = Fcntl.stage fd cmd b ∨
      (Fcntl.stage fd cmd a = .alloc [usizeOfInt fd, usizeOfInt cmd, usizeOfInt a] ∧
       Fcntl.stage fd cmd b = .alloc [usizeOfInt fd, usizeOfInt cmd, usizeOfInt b]) := by
  unfold Fcntl.stage
  split_ifs <;> first
    | exact Or.inl rfl
    | exact Or.inr ⟨rfl, rfl⟩

end Sallyport
